import Mathlib

/-!
# OpenGL-Example: call-trace model of `Debug.h`, `Util.h` and `main.cpp`

The program is a fixed sequence of calls into GLFW, GLEW and OpenGL.  Every
function of the repository is embedded as a Lean function that returns the list
of library calls it issues (the call trace) together with its outcome (a
returned value or a thrown `std::runtime_error`).  Whatever the libraries answer
(return values, status flags, info logs, the window close flag) is taken from an
explicit environment record, so every statement quantifies over all possible
driver behaviours.
-/

namespace OpenGLExample

/-! ## Header constants (glew.h / glfw3.h) -/

def GL_DEBUG_SOURCE_API : Nat := 0x8246
def GL_DEBUG_SOURCE_WINDOW_SYSTEM : Nat := 0x8247
def GL_DEBUG_SOURCE_SHADER_COMPILER : Nat := 0x8248
def GL_DEBUG_SOURCE_THIRD_PARTY : Nat := 0x8249
def GL_DEBUG_SOURCE_APPLICATION : Nat := 0x824A
def GL_DEBUG_SOURCE_OTHER : Nat := 0x824B

def GL_DEBUG_TYPE_ERROR : Nat := 0x824C
def GL_DEBUG_TYPE_DEPRECATED_BEHAVIOR : Nat := 0x824D
def GL_DEBUG_TYPE_UNDEFINED_BEHAVIOR : Nat := 0x824E
def GL_DEBUG_TYPE_PORTABILITY : Nat := 0x824F
def GL_DEBUG_TYPE_PERFORMANCE : Nat := 0x8250
def GL_DEBUG_TYPE_OTHER : Nat := 0x8251
def GL_DEBUG_TYPE_MARKER : Nat := 0x8268
def GL_DEBUG_TYPE_PUSH_GROUP : Nat := 0x8269
def GL_DEBUG_TYPE_POP_GROUP : Nat := 0x826A

def GL_DEBUG_SEVERITY_HIGH : Nat := 0x9146
def GL_DEBUG_SEVERITY_MEDIUM : Nat := 0x9147
def GL_DEBUG_SEVERITY_LOW : Nat := 0x9148
def GL_DEBUG_SEVERITY_NOTIFICATION : Nat := 0x826B

def GL_TRUE : Nat := 1
def GL_FALSE : Nat := 0
def GL_TRIANGLES : Nat := 0x0004
def GL_DONT_CARE : Nat := 0x1100
def GL_FLOAT : Nat := 0x1406
def GL_COLOR_BUFFER_BIT : Nat := 0x4000
def GL_DEBUG_OUTPUT_SYNCHRONOUS : Nat := 0x8242
def GL_FRAGMENT_SHADER : Nat := 0x8B30
def GL_VERTEX_SHADER : Nat := 0x8B31
def GL_COMPILE_STATUS : Nat := 0x8B81
def GL_LINK_STATUS : Nat := 0x8B82
def GL_INFO_LOG_LENGTH : Nat := 0x8B84
def GL_FRAMEBUFFER_SRGB : Nat := 0x8DB9
def GL_DEBUG_OUTPUT : Nat := 0x92E0
def GLEW_OK : Nat := 0

def GLFW_TRUE : Nat := 1
def GLFW_FALSE : Nat := 0
def GLFW_VISIBLE : Nat := 0x00020004
def GLFW_CLIENT_API : Nat := 0x00022001
def GLFW_CONTEXT_VERSION_MAJOR : Nat := 0x00022002
def GLFW_CONTEXT_VERSION_MINOR : Nat := 0x00022003
def GLFW_OPENGL_FORWARD_COMPAT : Nat := 0x00022006
def GLFW_OPENGL_DEBUG_CONTEXT : Nat := 0x00022007
def GLFW_OPENGL_PROFILE : Nat := 0x00022008
def GLFW_OPENGL_API : Nat := 0x00030001
def GLFW_OPENGL_ANY_PROFILE : Nat := 0
def GLFW_OPENGL_CORE_PROFILE : Nat := 0x00032001
def GLFW_OPENGL_COMPAT_PROFILE : Nat := 0x00032002

/-! ## Debug.h -/

/-- First switch of `debugCallback` (Debug.h:13-33): the value of the local `src`. -/
def debugCallback.src (source : Nat) : String :=
  if source = GL_DEBUG_SOURCE_API then "API"
  else if source = GL_DEBUG_SOURCE_WINDOW_SYSTEM then "Window"
  else if source = GL_DEBUG_SOURCE_SHADER_COMPILER then "Shader"
  else if source = GL_DEBUG_SOURCE_THIRD_PARTY then "Third Party"
  else if source = GL_DEBUG_SOURCE_APPLICATION then "Application"
  else "Unknown"

/-- Second switch of `debugCallback` (Debug.h:35-67): the value of the local `typ`. -/
def debugCallback.typ (type : Nat) : String :=
  if type = GL_DEBUG_TYPE_ERROR then "ERROR"
  else if type = GL_DEBUG_TYPE_DEPRECATED_BEHAVIOR then "DEPRECATED BEHAVIOUR"
  else if type = GL_DEBUG_TYPE_UNDEFINED_BEHAVIOR then "UNDEFINED BEHAVIOUR"
  else if type = GL_DEBUG_TYPE_PORTABILITY then "PORTABILITY"
  else if type = GL_DEBUG_TYPE_PERFORMANCE then "PERFORMANCE"
  else if type = GL_DEBUG_TYPE_MARKER then "MARKER"
  else if type = GL_DEBUG_TYPE_PUSH_GROUP then "PUSH GROUP"
  else if type = GL_DEBUG_TYPE_POP_GROUP then "POP GROUP"
  else if type = GL_DEBUG_TYPE_OTHER then "OTHER"
  else "UNKNOWN"

/-- Third switch of `debugCallback` (Debug.h:69-83): the value of the local `level`. -/
def debugCallback.level (severity : Nat) : String :=
  if severity = GL_DEBUG_SEVERITY_HIGH then "HIGH"
  else if severity = GL_DEBUG_SEVERITY_MEDIUM then "MEDIUM"
  else if severity = GL_DEBUG_SEVERITY_LOW then "LOW"
  else "UNKNOWN"

/-- The function `debugCallback` (Debug.h:4-86).  The result is the text written to
`std::cout`; `message` is the text of the NUL-terminated C string, `std::endl` is the
line end.  `id`, `length` and `userParam` are not used by the source. -/
def debugCallback (source type id severity length : Nat) (message : String)
    (userParam : Nat) : String :=
  let _ := id
  let _ := length
  let _ := userParam
  "[" ++ debugCallback.level severity ++ "] " ++ "(" ++ debugCallback.typ type ++ ") "
    ++ "<" ++ debugCallback.src source ++ "> " ++ message ++ "\n"

/-! ## Calls, traces and outcomes -/

/-- A `glm::vec3`: three floats.  The literals of the program are dyadic, so rationals
hold them exactly. -/
structure Vec3 where
  x : Rat
  y : Rat
  z : Rat
  deriving DecidableEq

/-- One call into GLFW, GLEW or OpenGL with its arguments.  `glfwInit`,
`glfwCreateWindow` and `glfwWindowShouldClose` also record the value the library
returned, a null `GLFWwindow*` being `none`. -/
inductive Call where
  | glfwInit (result : Nat)
  | glfwWindowHint (hint value : Nat)
  | glfwCreateWindow (width height : Int) (title : String) (result : Option Nat)
  | glfwTerminate
  | glfwMakeContextCurrent (window : Nat)
  | glfwDestroyWindow (window : Nat)
  | glfwWindowShouldClose (window : Nat) (result : Bool)
  | glfwPollEvents
  | glfwSwapBuffers (window : Nat)
  | glewInit
  | glEnable (cap : Nat)
  | glDebugMessageCallback
  | glDebugMessageControl (source type severity count enabled : Nat)
  | glClearColor (red green blue alpha : Rat)
  | glViewport (x y width height : Nat)
  | glCreateShader (type : Nat)
  | glShaderSource (shader count : Nat) (source : String)
  | glCompileShader (shader : Nat)
  | glGetShaderiv (shader pname : Nat)
  | glGetShaderInfoLog (shader bufSize : Nat)
  | glDeleteShader (shader : Nat)
  | glCreateProgram
  | glAttachShader (program shader : Nat)
  | glLinkProgram (program : Nat)
  | glGetProgramiv (program pname : Nat)
  | glGetProgramInfoLog (program bufSize : Nat)
  | glDeleteProgram (program : Nat)
  | glUseProgram (program : Nat)
  | glCreateBuffers (n : Nat)
  | glNamedBufferStorage (buffer size : Nat) (data : List Vec3) (flags : Nat)
  | glDeleteBuffers (n buffer : Nat)
  | glCreateVertexArrays (n : Nat)
  | glVertexArrayVertexBuffer (vaobj bindingindex buffer offset stride : Nat)
  | glVertexArrayAttribFormat (vaobj attribindex size type normalized relativeoffset : Nat)
  | glEnableVertexArrayAttrib (vaobj index : Nat)
  | glVertexArrayAttribBinding (vaobj attribindex bindingindex : Nat)
  | glBindVertexArray (array : Nat)
  | glDeleteVertexArrays (n array : Nat)
  | glClear (mask : Nat)
  | glDrawArrays (mode first count : Nat)
  deriving DecidableEq

/-- How a run of `main` ends: `return code`, an uncaught `std::runtime_error`, or (in the
model only) still inside the frame loop when the iteration budget is used up. -/
inductive Outcome where
  | returned (code : Int)
  | threw (what : String)
  | unfinished
  deriving DecidableEq

/-! ## What the libraries answer -/

/-- Answers of GLFW to `createWindow`: the value of `glfwInit()` and the pointer
returned by `glfwCreateWindow` (`none` is `nullptr`). -/
structure GlfwEnv where
  glfwInit : Nat
  glfwCreateWindow : Option Nat

/-- Answers of GLEW to `initGlew`: the value of `glewInit()` and the flag
`GLEW_ARB_debug_output`. -/
structure GlewEnv where
  glewInit : Nat
  GLEW_ARB_debug_output : Bool

/-- Answers of the GL driver for one shader or program object: the name returned by
`glCreateShader`/`glCreateProgram`, the compile/link status, the value of
`GL_INFO_LOG_LENGTH` (never negative), the text of the info log kept by the driver,
and the bytes found in memory from the address of the local array `log` on before
anything is written to it (the array is not initialised by the source). -/
structure ObjectEnv where
  name : Nat
  status : Int
  infoLogLength : Nat
  infoLog : List Char
  memory : List Char

/-- Everything the outside world answers during one run of `main`.  `shouldClose i` is
the value of the close flag of the window at the `i`-th evaluation of the loop
condition: `shouldClose 0` is the flag before the first poll and `shouldClose (i+1)` is
the flag left by the `glfwPollEvents` call of iteration `i`. -/
structure Env where
  glfw : GlfwEnv
  glew : GlewEnv
  vertex : ObjectEnv
  fragment : ObjectEnv
  program : ObjectEnv
  vertexBuffer : Nat
  vertexArrayObject : Nat
  shouldClose : Nat → Bool

/-! ## Library behaviour used by the source -/

/-- The NUL character that ends a C string. -/
def NUL : Char := Char.ofNat 0

/-- Effect of `glGetShaderInfoLog`/`glGetProgramInfoLog (obj, bufSize, nullptr, log)` on
the memory at `log`: at most `bufSize - 1` characters of the info log followed by a
NUL are written; nothing is written when `bufSize` is `0`. -/
def getInfoLog (infoLog : List Char) (bufSize : Nat) (memory : List Char) : List Char :=
  if bufSize = 0 then memory
  else
    let written := infoLog.take (bufSize - 1) ++ [NUL]
    written ++ memory.drop written.length

/-- The constructor `std::string(const char*)`: the characters before the first NUL. -/
def stdString (memory : List Char) : String :=
  String.mk (memory.takeWhile (fun c => c != NUL))

/-- The conversion `static_cast<int>` of a `uint32_t`. -/
def static_cast_int (v : Nat) : Int :=
  if v % 2 ^ 32 < 2 ^ 31 then (v % 2 ^ 32 : Nat) else ((v % 2 ^ 32 : Nat) : Int) - 2 ^ 32

/-! ## Util.h -/

/-- The function `initGlew` (Util.h:11-24).  The assignment `glewExperimental = GL_TRUE`
is a store to a global and issues no call. -/
def initGlew (e : GlewEnv) : List Call × Except String Unit :=
  if GLEW_OK ≠ e.glewInit then
    ([Call.glewInit], .error "Failed to initialize GLEW")
  else if e.GLEW_ARB_debug_output then
    ([Call.glewInit,
      Call.glEnable GL_DEBUG_OUTPUT,
      Call.glEnable GL_DEBUG_OUTPUT_SYNCHRONOUS,
      Call.glDebugMessageCallback,
      Call.glDebugMessageControl GL_DONT_CARE GL_DONT_CARE GL_DONT_CARE 0 GL_TRUE], .ok ())
  else
    ([Call.glewInit], .ok ())

/-- The seven `glfwWindowHint` calls of `createWindow` (Util.h:38-51), in order. -/
def createWindow.hints : List Call :=
  [Call.glfwWindowHint GLFW_CLIENT_API GLFW_OPENGL_API,
   Call.glfwWindowHint GLFW_CONTEXT_VERSION_MAJOR 4,
   Call.glfwWindowHint GLFW_CONTEXT_VERSION_MINOR 5,
   Call.glfwWindowHint GLFW_OPENGL_COMPAT_PROFILE GLFW_OPENGL_CORE_PROFILE,
   Call.glfwWindowHint GLFW_OPENGL_FORWARD_COMPAT GLFW_TRUE,
   Call.glfwWindowHint GLFW_VISIBLE GLFW_TRUE,
   Call.glfwWindowHint GLFW_OPENGL_DEBUG_CONTEXT GLFW_TRUE]

/-- The function `createWindow` (Util.h:32-66). -/
def createWindow (e : GlfwEnv) (width height : Nat) : List Call × Except String Nat :=
  if GLFW_TRUE ≠ e.glfwInit then
    ([Call.glfwInit e.glfwInit], .error "Failed to initialize GLFW")
  else
    let create := Call.glfwCreateWindow (static_cast_int width) (static_cast_int height)
      "OpenGL Example" e.glfwCreateWindow
    match e.glfwCreateWindow with
    | none =>
      ([Call.glfwInit e.glfwInit] ++ createWindow.hints ++ [create, Call.glfwTerminate],
        .error "Failed to create GLFW window")
    | some window =>
      ([Call.glfwInit e.glfwInit] ++ createWindow.hints
        ++ [create, Call.glfwMakeContextCurrent window], .ok window)

/-- The function `destroyWindow` (Util.h:72-76). -/
def destroyWindow (window : Nat) : List Call :=
  [Call.glfwDestroyWindow window, Call.glfwTerminate]

/-- The function `linkModules` (Util.h:84-107). -/
def linkModules (e : ObjectEnv) (vertexModule fragmentModule : Nat) :
    List Call × Except String Nat :=
  let program := e.name
  let success := e.status
  let linking :=
    [Call.glCreateProgram,
     Call.glAttachShader program vertexModule,
     Call.glAttachShader program fragmentModule,
     Call.glLinkProgram program,
     Call.glGetProgramiv program GL_LINK_STATUS]
  if success = 0 then
    let size := e.infoLogLength
    let log := getInfoLog e.infoLog size e.memory
    (linking ++ [Call.glGetProgramiv program GL_INFO_LOG_LENGTH,
                 Call.glGetProgramInfoLog program size],
      .error ("Failed to link GL shader program.\n" ++ stdString log))
  else
    (linking, .ok program)

/-- The function `createShaderModule` (Util.h:115-137). -/
def createShaderModule (e : ObjectEnv) (type : Nat) (source : String) :
    List Call × Except String Nat :=
  let module := e.name
  let status := e.status
  let compiling :=
    [Call.glCreateShader type,
     Call.glShaderSource module 1 source,
     Call.glCompileShader module,
     Call.glGetShaderiv module GL_COMPILE_STATUS]
  if status = 0 then
    let size := e.infoLogLength
    let log := getInfoLog e.infoLog size e.memory
    (compiling ++ [Call.glGetShaderiv module GL_INFO_LOG_LENGTH,
                   Call.glGetShaderInfoLog module size],
      .error ("Failed to compile GL shader module.\n" ++ stdString log))
  else
    (compiling, .ok module)

/-! ## main.cpp -/

def width : Nat := 720

def height : Nat := 480

/-- The raw string literal passed as the vertex shader (main.cpp:33-41). -/
def vertexShaderSource : String :=
  "\n#version 450 core\n\nlayout(location = 0) in vec3 position;\n\nvoid main() \x7b\n    gl_Position = vec4(position, 1.0);\n\x7d\n"

/-- The raw string literal passed as the fragment shader (main.cpp:42-50). -/
def fragmentShaderSource : String :=
  "\n#version 450 core\n\nlayout(location = 0) out vec4 color;\n\nvoid main() \x7b\n    color = vec4(1.0, 0.0, 0.0, 1.0);\n\x7d\n"

/-- The vector `vertices` (main.cpp:60-64). -/
def vertices : List Vec3 :=
  [⟨-1/2, -1/2, 0⟩, ⟨1/2, -1/2, 0⟩, ⟨0, 1/2, 0⟩]

/-- The value of `sizeof(float)`. -/
def sizeof_float : Nat := 4

/-- The value of `sizeof(glm::vec3)`: three packed floats. -/
def sizeof_vec3 : Nat := 3 * sizeof_float

/-- The calls of main.cpp:25-30, between `initGlew` and the first shader. -/
def main.state : List Call :=
  [Call.glEnable GL_FRAMEBUFFER_SRGB,
   Call.glClearColor 0 0 0 0,
   Call.glViewport 0 0 width height]

/-- The calls of main.cpp:66-123: buffer creation, upload and vertex layout. -/
def main.geometry (vertexBuffer vertexArrayObject : Nat) : List Call :=
  [Call.glCreateBuffers 1,
   Call.glNamedBufferStorage vertexBuffer (3 * sizeof_vec3) vertices 0,
   Call.glCreateVertexArrays 1,
   Call.glVertexArrayVertexBuffer vertexArrayObject 0 vertexBuffer 0 sizeof_vec3,
   Call.glVertexArrayAttribFormat vertexArrayObject 0 3 GL_FLOAT GL_FALSE 0,
   Call.glEnableVertexArrayAttrib vertexArrayObject 0,
   Call.glVertexArrayAttribBinding vertexArrayObject 0 0]

/-- The body of the frame loop (main.cpp:126-145), one iteration. -/
def main.frame (window shaderProgram vertexArrayObject : Nat) : List Call :=
  [Call.glfwPollEvents,
   Call.glClear GL_COLOR_BUFFER_BIT,
   Call.glUseProgram shaderProgram,
   Call.glBindVertexArray vertexArrayObject,
   Call.glDrawArrays GL_TRIANGLES 0 3,
   Call.glfwSwapBuffers window]

/-- The frame loop `while (!glfwWindowShouldClose(window)) ...` (main.cpp:125-146) from
the `i`-th evaluation of its condition on, for at most `fuel` evaluations.  The Boolean
tells whether the loop was left (`false`: the budget ran out first). -/
def main.loop (shouldClose : Nat → Bool) (window shaderProgram vertexArrayObject : Nat) :
    Nat → Nat → List Call × Bool
  | 0, _ => ([], false)
  | fuel + 1, i =>
    if shouldClose i then
      ([Call.glfwWindowShouldClose window true], true)
    else
      let rest := main.loop shouldClose window shaderProgram vertexArrayObject fuel (i + 1)
      (Call.glfwWindowShouldClose window false
          :: main.frame window shaderProgram vertexArrayObject ++ rest.1, rest.2)

/-- The calls of main.cpp:149-152, after the loop. -/
def main.teardown (window shaderProgram vertexBuffer vertexArrayObject : Nat) : List Call :=
  [Call.glDeleteVertexArrays 1 vertexArrayObject,
   Call.glDeleteBuffers 1 vertexBuffer,
   Call.glDeleteProgram shaderProgram]
  ++ destroyWindow window

/-- The function `main` (main.cpp:18-155): the call trace and how the run ends.  `fuel`
bounds the number of times the loop condition is evaluated. -/
def main (env : Env) (fuel : Nat) : List Call × Outcome :=
  match createWindow env.glfw width height with
  | (t1, .error what) => (t1, .threw what)
  | (t1, .ok window) =>
  match initGlew env.glew with
  | (t2, .error what) => (t1 ++ t2, .threw what)
  | (t2, .ok ()) =>
  match createShaderModule env.vertex GL_VERTEX_SHADER vertexShaderSource with
  | (t3, .error what) => (t1 ++ t2 ++ main.state ++ t3, .threw what)
  | (t3, .ok vertexShader) =>
  match createShaderModule env.fragment GL_FRAGMENT_SHADER fragmentShaderSource with
  | (t4, .error what) => (t1 ++ t2 ++ main.state ++ t3 ++ t4, .threw what)
  | (t4, .ok fragmentShader) =>
  match linkModules env.program vertexShader fragmentShader with
  | (t5, .error what) => (t1 ++ t2 ++ main.state ++ t3 ++ t4 ++ t5, .threw what)
  | (t5, .ok shaderProgram) =>
  let setup := t1 ++ t2 ++ main.state ++ t3 ++ t4 ++ t5
    ++ [Call.glDeleteShader vertexShader, Call.glDeleteShader fragmentShader]
    ++ main.geometry env.vertexBuffer env.vertexArrayObject
  match main.loop env.shouldClose window shaderProgram env.vertexArrayObject fuel 0 with
  | (frames, false) => (setup ++ frames, .unfinished)
  | (frames, true) =>
    (setup ++ frames
      ++ main.teardown window shaderProgram env.vertexBuffer env.vertexArrayObject,
      .returned 0)

/-! ## Observations on traces (used to state the properties) -/

/-- The documented values of the GL debug-source enumeration. -/
def documentedDebugSources : List Nat :=
  [GL_DEBUG_SOURCE_API, GL_DEBUG_SOURCE_WINDOW_SYSTEM, GL_DEBUG_SOURCE_SHADER_COMPILER,
   GL_DEBUG_SOURCE_THIRD_PARTY, GL_DEBUG_SOURCE_APPLICATION, GL_DEBUG_SOURCE_OTHER]

/-- The documented values of the GL debug-type enumeration. -/
def documentedDebugTypes : List Nat :=
  [GL_DEBUG_TYPE_ERROR, GL_DEBUG_TYPE_DEPRECATED_BEHAVIOR, GL_DEBUG_TYPE_UNDEFINED_BEHAVIOR,
   GL_DEBUG_TYPE_PORTABILITY, GL_DEBUG_TYPE_PERFORMANCE, GL_DEBUG_TYPE_OTHER,
   GL_DEBUG_TYPE_MARKER, GL_DEBUG_TYPE_PUSH_GROUP, GL_DEBUG_TYPE_POP_GROUP]

/-- The label vocabulary of the diagnostic line, as a table from enumeration value to
label; `labelOf` falls back to `fallback` for a value that is not in the table. -/
def labelOf : List (Nat × String) → String → Nat → String
  | [], fallback, _ => fallback
  | (value, label) :: table, fallback, v =>
    if v = value then label else labelOf table fallback v

/-- Label of each severity value that has one of its own. -/
def severityLabels : List (Nat × String) :=
  [(GL_DEBUG_SEVERITY_HIGH, "HIGH"), (GL_DEBUG_SEVERITY_MEDIUM, "MEDIUM"),
   (GL_DEBUG_SEVERITY_LOW, "LOW")]

/-- Label of each type value that has one of its own. -/
def typeLabels : List (Nat × String) :=
  [(GL_DEBUG_TYPE_ERROR, "ERROR"),
   (GL_DEBUG_TYPE_DEPRECATED_BEHAVIOR, "DEPRECATED BEHAVIOUR"),
   (GL_DEBUG_TYPE_UNDEFINED_BEHAVIOR, "UNDEFINED BEHAVIOUR"),
   (GL_DEBUG_TYPE_PORTABILITY, "PORTABILITY"),
   (GL_DEBUG_TYPE_PERFORMANCE, "PERFORMANCE"),
   (GL_DEBUG_TYPE_MARKER, "MARKER"),
   (GL_DEBUG_TYPE_PUSH_GROUP, "PUSH GROUP"),
   (GL_DEBUG_TYPE_POP_GROUP, "POP GROUP"),
   (GL_DEBUG_TYPE_OTHER, "OTHER")]

/-- Label of each source value that has one of its own. -/
def sourceLabels : List (Nat × String) :=
  [(GL_DEBUG_SOURCE_API, "API"), (GL_DEBUG_SOURCE_WINDOW_SYSTEM, "Window"),
   (GL_DEBUG_SOURCE_SHADER_COMPILER, "Shader"), (GL_DEBUG_SOURCE_THIRD_PARTY, "Third Party"),
   (GL_DEBUG_SOURCE_APPLICATION, "Application")]

/-- The state of the windowing library: whether the subsystem is initialised, the
windows that exist, and the window whose context is current. -/
structure GlfwState where
  initialised : Bool
  windows : List Nat
  current : Option Nat
  deriving DecidableEq

/-- Effect of one call on the state of the windowing library: a `glfwInit` that returns
`GLFW_TRUE` initialises it, a `glfwCreateWindow` that returns a window adds that window,
`glfwDestroyWindow` removes one and `glfwTerminate` destroys every window and shuts the
subsystem down. -/
def GlfwState.step (s : GlfwState) : Call → GlfwState
  | .glfwInit result => if result = GLFW_TRUE then { s with initialised := true } else s
  | .glfwCreateWindow _ _ _ (some window) => { s with windows := window :: s.windows }
  | .glfwMakeContextCurrent window => { s with current := some window }
  | .glfwDestroyWindow window =>
    { s with windows := s.windows.erase window,
             current := if s.current = some window then none else s.current }
  | .glfwTerminate => ⟨false, [], none⟩
  | _ => s

/-- The state of the windowing library after a trace, starting from a process in which
nothing is initialised. -/
def glfwAfter (trace : List Call) : GlfwState :=
  trace.foldl GlfwState.step ⟨false, [], none⟩

/-- The value a window hint has after `glfwInit` when no `glfwWindowHint` call names it
(GLFW documentation, window hint default values). -/
def glfwDefaultHint (hint : Nat) : Nat :=
  if hint = GLFW_CLIENT_API then GLFW_OPENGL_API
  else if hint = GLFW_CONTEXT_VERSION_MAJOR then 1
  else if hint = GLFW_CONTEXT_VERSION_MINOR then 0
  else if hint = GLFW_VISIBLE then GLFW_TRUE
  else if hint = GLFW_OPENGL_FORWARD_COMPAT then GLFW_FALSE
  else if hint = GLFW_OPENGL_DEBUG_CONTEXT then GLFW_FALSE
  else if hint = GLFW_OPENGL_PROFILE then GLFW_OPENGL_ANY_PROFILE
  else 0

/-- The value of `hint` after the `glfwWindowHint` calls of `calls`, in order: the value
given by the last call that names `hint`, the default when none does. -/
def hintValue (hint : Nat) (calls : List Call) : Nat :=
  calls.foldl (fun value c => match c with
    | Call.glfwWindowHint h v => if h = hint then v else value
    | _ => value) (glfwDefaultHint hint)

/-- The calls of a trace that come before its first `glfwCreateWindow` call. -/
def beforeCreateWindow (trace : List Call) : List Call :=
  trace.takeWhile fun c => match c with
    | Call.glfwCreateWindow _ _ _ _ => false
    | _ => true

/-- The resources that `main` owns until teardown. -/
inductive Resource where
  | windowingSubsystem
  | window
  | shaderProgram
  | vertexBuffer
  | vertexArray
  deriving DecidableEq

/-- The resource a call creates, if it creates one of the resources torn down at exit. -/
def Call.creates : Call → Option Resource
  | .glfwInit _ => some .windowingSubsystem
  | .glfwCreateWindow _ _ _ _ => some .window
  | .glCreateProgram => some .shaderProgram
  | .glCreateBuffers _ => some .vertexBuffer
  | .glCreateVertexArrays _ => some .vertexArray
  | _ => none

/-- The resource a call destroys, if it destroys one. -/
def Call.destroys : Call → Option Resource
  | .glfwTerminate => some .windowingSubsystem
  | .glfwDestroyWindow _ => some .window
  | .glDeleteProgram _ => some .shaderProgram
  | .glDeleteBuffers _ _ => some .vertexBuffer
  | .glDeleteVertexArrays _ _ => some .vertexArray
  | _ => none

/-- The calls of a trace issued after its last `glfwPollEvents` call (the whole trace
when it has none). -/
def afterLastPoll (trace : List Call) : List Call :=
  trace.foldl (fun acc c => if c = Call.glfwPollEvents then [] else acc ++ [c]) []

/-- The calls `main` issues before the frame loop in a run where the window with handle
`window` is created, GLEW initialises, both stages compile and the program links. -/
def main.setup (env : Env) (window : Nat) : List Call :=
  [Call.glfwInit GLFW_TRUE] ++ createWindow.hints
  ++ [Call.glfwCreateWindow (static_cast_int width) (static_cast_int height)
        "OpenGL Example" (some window),
      Call.glfwMakeContextCurrent window]
  ++ (initGlew env.glew).1
  ++ main.state
  ++ [Call.glCreateShader GL_VERTEX_SHADER,
      Call.glShaderSource env.vertex.name 1 vertexShaderSource,
      Call.glCompileShader env.vertex.name,
      Call.glGetShaderiv env.vertex.name GL_COMPILE_STATUS]
  ++ [Call.glCreateShader GL_FRAGMENT_SHADER,
      Call.glShaderSource env.fragment.name 1 fragmentShaderSource,
      Call.glCompileShader env.fragment.name,
      Call.glGetShaderiv env.fragment.name GL_COMPILE_STATUS]
  ++ [Call.glCreateProgram,
      Call.glAttachShader env.program.name env.vertex.name,
      Call.glAttachShader env.program.name env.fragment.name,
      Call.glLinkProgram env.program.name,
      Call.glGetProgramiv env.program.name GL_LINK_STATUS]
  ++ [Call.glDeleteShader env.vertex.name, Call.glDeleteShader env.fragment.name]
  ++ main.geometry env.vertexBuffer env.vertexArrayObject

/-- Every creation step of `main` succeeds and the window has handle `window`:
`glfwInit` returns `GLFW_TRUE`, `glfwCreateWindow` returns `window`, `glewInit` returns
`GLEW_OK`, both compile statuses and the link status are non-zero. -/
def Env.succeeds (env : Env) (window : Nat) : Prop :=
  env.glfw.glfwInit = GLFW_TRUE ∧ env.glfw.glfwCreateWindow = some window
  ∧ env.glew.glewInit = GLEW_OK
  ∧ env.vertex.status ≠ 0 ∧ env.fragment.status ≠ 0 ∧ env.program.status ≠ 0

/-- Calls that bind the program or put a frame on the screen: `glUseProgram`,
`glDrawArrays` and `glfwSwapBuffers`. -/
def Call.rendersFrame : Call → Bool
  | .glUseProgram _ => true
  | .glDrawArrays _ _ _ => true
  | .glfwSwapBuffers _ => true
  | _ => false

/-- A driver answer for an object that compiles or links. -/
def goodObject (name : Nat) : ObjectEnv :=
  { name := name, status := 1, infoLogLength := 0, infoLog := [], memory := [] }

/-- A driver answer for an object that fails with the info log `error` (length reported
with the terminating NUL, as the driver does). -/
def badObject (name : Nat) : ObjectEnv :=
  { name := name, status := 0, infoLogLength := 6, infoLog := "error".toList, memory := [] }

/-- A run in which every creation succeeds, the window is not closing before the first
poll and the close request is observed by the first `glfwPollEvents`. -/
def closeAtFirstPoll : Env :=
  { glfw := ⟨GLFW_TRUE, some 7⟩, glew := ⟨GLEW_OK, true⟩,
    vertex := goodObject 1, fragment := goodObject 2, program := goodObject 3,
    vertexBuffer := 1, vertexArrayObject := 1,
    shouldClose := fun i => decide (1 ≤ i) }

/-- A run in which both stages compile and `glLinkProgram` fails. -/
def linkFails : Env :=
  { closeAtFirstPoll with program := badObject 3 }

/-- Calls that upload the geometry or describe its layout: `glNamedBufferStorage`,
`glVertexArrayVertexBuffer`, `glVertexArrayAttribFormat`, `glEnableVertexArrayAttrib`
and `glVertexArrayAttribBinding`. -/
def Call.describesGeometry : Call → Bool
  | .glNamedBufferStorage _ _ _ _ => true
  | .glVertexArrayVertexBuffer _ _ _ _ _ => true
  | .glVertexArrayAttribFormat _ _ _ _ _ _ => true
  | .glEnableVertexArrayAttrib _ _ => true
  | .glVertexArrayAttribBinding _ _ _ => true
  | _ => false

/-! ## Properties of Debug.h -/

theorem debugCallback.src_eq_labelOf (source : Nat) :
    debugCallback.src source = labelOf sourceLabels "Unknown" source := by
  simp [debugCallback.src, labelOf, sourceLabels]

theorem debugCallback.typ_eq_labelOf (type : Nat) :
    debugCallback.typ type = labelOf typeLabels "UNKNOWN" type := by
  simp [debugCallback.typ, labelOf, typeLabels]

theorem debugCallback.level_eq_labelOf (severity : Nat) :
    debugCallback.level severity = labelOf severityLabels "UNKNOWN" severity := by
  simp [debugCallback.level, labelOf, severityLabels]

theorem debugCallback.src_mem (source : Nat) :
    debugCallback.src source
      ∈ ["API", "Window", "Shader", "Third Party", "Application", "Unknown"] := by
  unfold debugCallback.src
  repeat' split
  all_goals simp

theorem debugCallback.typ_mem (type : Nat) :
    debugCallback.typ type
      ∈ ["ERROR", "DEPRECATED BEHAVIOUR", "UNDEFINED BEHAVIOUR", "PORTABILITY", "PERFORMANCE",
         "MARKER", "PUSH GROUP", "POP GROUP", "OTHER", "UNKNOWN"] := by
  unfold debugCallback.typ
  repeat' split
  all_goals simp

theorem debugCallback.level_mem (severity : Nat) :
    debugCallback.level severity ∈ ["HIGH", "MEDIUM", "LOW", "UNKNOWN"] := by
  unfold debugCallback.level
  repeat' split
  all_goals simp

/-- C9. For every source, type, severity and message, `debugCallback` writes exactly
`[SEVERITY] (TYPE) <SOURCE> message` followed by a line end, where each of the three
labels belongs to its vocabulary and is the label that the table of the vocabulary gives
for the enumeration value received (the last label of each vocabulary standing for every
value without a label of its own). -/
theorem debugCallback_line_format (source type id severity length : Nat) (message : String)
    (userParam : Nat) :
    ∃ SEVERITY TYPE SOURCE : String,
      debugCallback source type id severity length message userParam
        = "[" ++ SEVERITY ++ "] (" ++ TYPE ++ ") <" ++ SOURCE ++ "> " ++ message ++ "\n"
      ∧ SEVERITY ∈ ["HIGH", "MEDIUM", "LOW", "UNKNOWN"]
      ∧ TYPE ∈ ["ERROR", "DEPRECATED BEHAVIOUR", "UNDEFINED BEHAVIOUR", "PORTABILITY",
                "PERFORMANCE", "MARKER", "PUSH GROUP", "POP GROUP", "OTHER", "UNKNOWN"]
      ∧ SOURCE ∈ ["API", "Window", "Shader", "Third Party", "Application", "Unknown"]
      ∧ SEVERITY = labelOf severityLabels "UNKNOWN" severity
      ∧ TYPE = labelOf typeLabels "UNKNOWN" type
      ∧ SOURCE = labelOf sourceLabels "Unknown" source := by
  refine ⟨debugCallback.level severity, debugCallback.typ type, debugCallback.src source,
    ?_, debugCallback.level_mem severity, debugCallback.typ_mem type,
    debugCallback.src_mem source, debugCallback.level_eq_labelOf severity,
    debugCallback.typ_eq_labelOf type, debugCallback.src_eq_labelOf source⟩
  simp [debugCallback, String.append_assoc]

/-- C10 as stated fails: the type value `0` is not a documented debug-type value and its
label is `UNKNOWN`, not `OTHER`. -/
theorem unrecognized_type_label_not_OTHER :
    (0 : Nat) ∉ documentedDebugTypes ∧ debugCallback.typ 0 = "UNKNOWN"
      ∧ debugCallback.typ 0 ≠ "OTHER" := by
  refine ⟨by decide, by decide, by decide⟩

/-- C10, amended. A source value that is not a documented debug-source value gets the
label `Unknown`, and a type value that is not a documented debug-type value gets the
label `UNKNOWN`. -/
theorem unrecognized_tags (source type : Nat)
    (hs : source ∉ documentedDebugSources) (ht : type ∉ documentedDebugTypes) :
    debugCallback.src source = "Unknown" ∧ debugCallback.typ type = "UNKNOWN" := by
  simp only [documentedDebugSources, documentedDebugTypes, List.mem_cons, List.mem_singleton,
    List.not_mem_nil, or_false, not_or] at hs ht
  constructor
  · simp [debugCallback.src, hs]
  · simp [debugCallback.typ, ht]

theorem unrecognized_tags_witness :
    (0 : Nat) ∉ documentedDebugSources ∧ (0 : Nat) ∉ documentedDebugTypes
      ∧ debugCallback.src 0 = "Unknown" ∧ debugCallback.typ 0 = "UNKNOWN" :=
  ⟨by decide, by decide, unrecognized_tags 0 0 (by decide) (by decide)⟩

/-! ## Properties of Util.h -/

theorem createWindow_init_fails (e : GlfwEnv) (width height : Nat)
    (h : GLFW_TRUE ≠ e.glfwInit) :
    createWindow e width height
      = ([Call.glfwInit e.glfwInit], .error "Failed to initialize GLFW") := by
  simp [createWindow, h]

theorem createWindow_window_null (e : GlfwEnv) (width height : Nat)
    (h : e.glfwInit = GLFW_TRUE) (hw : e.glfwCreateWindow = none) :
    createWindow e width height
      = ([Call.glfwInit GLFW_TRUE] ++ createWindow.hints
          ++ [Call.glfwCreateWindow (static_cast_int width) (static_cast_int height)
                "OpenGL Example" none, Call.glfwTerminate],
         .error "Failed to create GLFW window") := by
  simp [createWindow, h, hw]

theorem createWindow_ok (e : GlfwEnv) (width height window : Nat)
    (h : e.glfwInit = GLFW_TRUE) (hw : e.glfwCreateWindow = some window) :
    createWindow e width height
      = ([Call.glfwInit GLFW_TRUE] ++ createWindow.hints
          ++ [Call.glfwCreateWindow (static_cast_int width) (static_cast_int height)
                "OpenGL Example" (some window), Call.glfwMakeContextCurrent window],
         .ok window) := by
  simp [createWindow, h, hw]

/-- C5. Whenever `glfwInit` fails or `glfwCreateWindow` returns null, `createWindow`
throws: `Failed to initialize GLFW` in the first case (the only call issued is
`glfwInit`, so nothing was initialised), `Failed to create GLFW window` in the second
(where `glfwTerminate` is the last call before the throw).  In both cases, after the
trace no window exists, the windowing subsystem is not initialised, and
`glfwMakeContextCurrent` was never called. -/
theorem createWindow_no_partial_state (e : GlfwEnv) (width height : Nat)
    (hfail : GLFW_TRUE ≠ e.glfwInit ∨ e.glfwCreateWindow = none) :
    ((GLFW_TRUE ≠ e.glfwInit
        ∧ (createWindow e width height).2 = .error "Failed to initialize GLFW"
        ∧ (createWindow e width height).1 = [Call.glfwInit e.glfwInit])
      ∨ (e.glfwInit = GLFW_TRUE ∧ e.glfwCreateWindow = none
        ∧ (createWindow e width height).2 = .error "Failed to create GLFW window"
        ∧ ∃ before, (createWindow e width height).1
            = Call.glfwInit GLFW_TRUE :: before
              ++ [Call.glfwCreateWindow (static_cast_int width) (static_cast_int height)
                    "OpenGL Example" none, Call.glfwTerminate]))
    ∧ (glfwAfter (createWindow e width height).1).windows = []
    ∧ (glfwAfter (createWindow e width height).1).initialised = false
    ∧ ∀ window, Call.glfwMakeContextCurrent window ∉ (createWindow e width height).1 := by
  by_cases h : GLFW_TRUE = e.glfwInit
  · have hw : e.glfwCreateWindow = none := by
      rcases hfail with h1 | h1
      · exact absurd h h1
      · exact h1
    rw [createWindow_window_null e width height h.symm hw]
    refine ⟨Or.inr ⟨h.symm, hw, rfl, createWindow.hints, by simp⟩, ?_, ?_, ?_⟩
    · simp [glfwAfter, List.foldl_append, GlfwState.step]
    · simp [glfwAfter, List.foldl_append, GlfwState.step]
    · intro window
      simp [createWindow.hints]
  · rw [createWindow_init_fails e width height h]
    refine ⟨Or.inl ⟨h, rfl, rfl⟩, ?_, ?_, ?_⟩
    · have h2 : ¬ e.glfwInit = GLFW_TRUE := fun h3 => h h3.symm
      simp [glfwAfter, GlfwState.step, h2]
    · have h2 : ¬ e.glfwInit = GLFW_TRUE := fun h3 => h h3.symm
      simp [glfwAfter, GlfwState.step, h2]
    · intro window
      simp

theorem createWindow_no_partial_state_witness :
    (glfwAfter (createWindow ⟨GLFW_TRUE, none⟩ 720 480).1).windows = []
      ∧ (glfwAfter (createWindow ⟨GLFW_TRUE, none⟩ 720 480).1).initialised = false
      ∧ (glfwAfter (createWindow ⟨GLFW_FALSE, none⟩ 720 480).1).initialised = false :=
  ⟨(createWindow_no_partial_state ⟨GLFW_TRUE, none⟩ 720 480 (Or.inr rfl)).2.1,
   (createWindow_no_partial_state ⟨GLFW_TRUE, none⟩ 720 480 (Or.inr rfl)).2.2.1,
   (createWindow_no_partial_state ⟨GLFW_FALSE, none⟩ 720 480 (Or.inl (by decide))).2.2.1⟩

theorem beforeCreateWindow_createWindow (r : Nat) (w h : Int) (title : String)
    (result : Option Nat) (last : Call) :
    beforeCreateWindow ([Call.glfwInit r] ++ createWindow.hints
        ++ [Call.glfwCreateWindow w h title result, last])
      = Call.glfwInit r :: createWindow.hints := by
  simp [beforeCreateWindow, createWindow.hints, List.takeWhile]

/-- In every run of `createWindow` that reaches `glfwCreateWindow`, the hints for the
client API, the version, forward compatibility, debug context and visibility have the
requested values at that moment. -/
theorem createWindow_hints_requested (e : GlfwEnv) (width height : Nat)
    (h : e.glfwInit = GLFW_TRUE) :
    hintValue GLFW_CLIENT_API (beforeCreateWindow (createWindow e width height).1)
        = GLFW_OPENGL_API
    ∧ hintValue GLFW_CONTEXT_VERSION_MAJOR (beforeCreateWindow (createWindow e width height).1)
        = 4
    ∧ hintValue GLFW_CONTEXT_VERSION_MINOR (beforeCreateWindow (createWindow e width height).1)
        = 5
    ∧ hintValue GLFW_OPENGL_FORWARD_COMPAT (beforeCreateWindow (createWindow e width height).1)
        = GLFW_TRUE
    ∧ hintValue GLFW_OPENGL_DEBUG_CONTEXT (beforeCreateWindow (createWindow e width height).1)
        = GLFW_TRUE
    ∧ hintValue GLFW_VISIBLE (beforeCreateWindow (createWindow e width height).1)
        = GLFW_TRUE := by
  cases hw : e.glfwCreateWindow with
  | none =>
    rw [createWindow_window_null e width height h hw, beforeCreateWindow_createWindow]
    refine ⟨?_, ?_, ?_, ?_, ?_, ?_⟩ <;> decide
  | some window =>
    rw [createWindow_ok e width height window h hw, beforeCreateWindow_createWindow]
    refine ⟨?_, ?_, ?_, ?_, ?_, ?_⟩ <;> decide

/-- No run of `createWindow` ever names the hint `GLFW_OPENGL_PROFILE`: the profile
hint keeps its default `GLFW_OPENGL_ANY_PROFILE` when the window is created. -/
theorem createWindow_profile_hint_default (e : GlfwEnv) (width height : Nat) :
    (∀ value, Call.glfwWindowHint GLFW_OPENGL_PROFILE value ∉ (createWindow e width height).1)
    ∧ hintValue GLFW_OPENGL_PROFILE (beforeCreateWindow (createWindow e width height).1)
        = GLFW_OPENGL_ANY_PROFILE := by
  by_cases h : GLFW_TRUE = e.glfwInit
  · cases hw : e.glfwCreateWindow with
    | none =>
      rw [createWindow_window_null e width height h.symm hw, beforeCreateWindow_createWindow]
      refine ⟨fun value => ?_, by decide⟩
      simp [createWindow.hints, GLFW_OPENGL_PROFILE, GLFW_CLIENT_API,
        GLFW_CONTEXT_VERSION_MAJOR, GLFW_CONTEXT_VERSION_MINOR, GLFW_OPENGL_COMPAT_PROFILE,
        GLFW_OPENGL_FORWARD_COMPAT, GLFW_VISIBLE, GLFW_OPENGL_DEBUG_CONTEXT]
    | some window =>
      rw [createWindow_ok e width height window h.symm hw, beforeCreateWindow_createWindow]
      refine ⟨fun value => ?_, by decide⟩
      simp [createWindow.hints, GLFW_OPENGL_PROFILE, GLFW_CLIENT_API,
        GLFW_CONTEXT_VERSION_MAJOR, GLFW_CONTEXT_VERSION_MINOR, GLFW_OPENGL_COMPAT_PROFILE,
        GLFW_OPENGL_FORWARD_COMPAT, GLFW_VISIBLE, GLFW_OPENGL_DEBUG_CONTEXT]
  · rw [createWindow_init_fails e width height h]
    refine ⟨fun value => ?_, ?_⟩
    · simp
    · simp [beforeCreateWindow, List.takeWhile, hintValue, glfwDefaultHint,
        GLFW_OPENGL_PROFILE, GLFW_CLIENT_API, GLFW_CONTEXT_VERSION_MAJOR,
        GLFW_CONTEXT_VERSION_MINOR, GLFW_OPENGL_FORWARD_COMPAT, GLFW_VISIBLE,
        GLFW_OPENGL_DEBUG_CONTEXT]

/-- C8, the code at `createWindow(720, 480)` with `glfwInit` and `glfwCreateWindow`
succeeding: the fourth hint call names `GLFW_OPENGL_COMPAT_PROFILE` (a profile value)
in the place of the hint `GLFW_OPENGL_PROFILE`, so when `glfwCreateWindow` is called
the profile hint is still `GLFW_OPENGL_ANY_PROFILE` and not
`GLFW_OPENGL_CORE_PROFILE`. -/
theorem createWindow_profile_hint_not_core :
    Call.glfwWindowHint GLFW_OPENGL_COMPAT_PROFILE GLFW_OPENGL_CORE_PROFILE
        ∈ beforeCreateWindow (createWindow ⟨GLFW_TRUE, some 1⟩ 720 480).1
    ∧ Call.glfwWindowHint GLFW_OPENGL_PROFILE GLFW_OPENGL_CORE_PROFILE
        ∉ (createWindow ⟨GLFW_TRUE, some 1⟩ 720 480).1
    ∧ hintValue GLFW_OPENGL_PROFILE
        (beforeCreateWindow (createWindow ⟨GLFW_TRUE, some 1⟩ 720 480).1)
        = GLFW_OPENGL_ANY_PROFILE
    ∧ GLFW_OPENGL_ANY_PROFILE ≠ GLFW_OPENGL_CORE_PROFILE := by
  refine ⟨by decide, by decide, by decide, by decide⟩

theorem createShaderModule_compiled (e : ObjectEnv) (type : Nat) (source : String)
    (h : e.status ≠ 0) :
    createShaderModule e type source
      = ([Call.glCreateShader type, Call.glShaderSource e.name 1 source,
          Call.glCompileShader e.name, Call.glGetShaderiv e.name GL_COMPILE_STATUS],
         .ok e.name) := by
  simp [createShaderModule, h]

theorem createShaderModule_failed (e : ObjectEnv) (type : Nat) (source : String)
    (h : e.status = 0) :
    createShaderModule e type source
      = ([Call.glCreateShader type, Call.glShaderSource e.name 1 source,
          Call.glCompileShader e.name, Call.glGetShaderiv e.name GL_COMPILE_STATUS,
          Call.glGetShaderiv e.name GL_INFO_LOG_LENGTH,
          Call.glGetShaderInfoLog e.name e.infoLogLength],
         .error ("Failed to compile GL shader module.\n"
            ++ stdString (getInfoLog e.infoLog e.infoLogLength e.memory))) := by
  simp [createShaderModule, h]

theorem stdString_getInfoLog (infoLog memory : List Char) (h : NUL ∉ infoLog) :
    stdString (getInfoLog infoLog (infoLog.length + 1) memory) = String.mk infoLog := by
  have htake : ∀ (l rest : List Char), NUL ∉ l →
      (l ++ NUL :: rest).takeWhile (fun c => c != NUL) = l := by
    intro l rest hl
    induction l with
    | nil => simp [List.takeWhile]
    | cons a l ih =>
      have ha : a ≠ NUL := fun e => hl (by simp [e])
      have hl2 : NUL ∉ l := fun e => hl (by simp [e])
      have hne : (a != NUL) = true := by simpa using ha
      rw [List.cons_append, List.takeWhile_cons, hne]
      simp [ih hl2]
  simp [stdString, getInfoLog, htake _ _ h]

/-- When the driver reports a failed compilation and a non-empty log length that counts
the terminating NUL, `createShaderModule` throws the message made of the fixed text and
the info log of the driver, after querying `GL_INFO_LOG_LENGTH` and reading the log with
a buffer of that length. -/
theorem createShaderModule_reports_log (e : ObjectEnv) (type : Nat) (source : String)
    (hstatus : e.status = 0) (hlen : e.infoLogLength = e.infoLog.length + 1)
    (hnul : NUL ∉ e.infoLog) :
    createShaderModule e type source
      = ([Call.glCreateShader type, Call.glShaderSource e.name 1 source,
          Call.glCompileShader e.name, Call.glGetShaderiv e.name GL_COMPILE_STATUS,
          Call.glGetShaderiv e.name GL_INFO_LOG_LENGTH,
          Call.glGetShaderInfoLog e.name (e.infoLog.length + 1)],
         .error ("Failed to compile GL shader module.\n" ++ String.mk e.infoLog)) := by
  rw [createShaderModule_failed e type source hstatus, hlen, stdString_getInfoLog _ _ hnul]

/-- C2, the code when the driver reports a failed compilation with an empty info log
(`GL_INFO_LOG_LENGTH` is `0`): the array `log` has no element, `glGetShaderInfoLog`
writes nothing, and the message is built from whatever bytes lie at that address (here
`x` and a NUL), not from the empty log of the driver. -/
theorem createShaderModule_empty_log :
    (createShaderModule ⟨1, 0, 0, [], ['x', NUL]⟩ GL_VERTEX_SHADER vertexShaderSource).2
        = .error "Failed to compile GL shader module.\nx"
    ∧ "Failed to compile GL shader module.\nx"
        ≠ "Failed to compile GL shader module.\n" ++ String.mk [] := by
  refine ⟨rfl, by decide⟩

theorem linkModules_linked (e : ObjectEnv) (vertexModule fragmentModule : Nat)
    (h : e.status ≠ 0) :
    linkModules e vertexModule fragmentModule
      = ([Call.glCreateProgram, Call.glAttachShader e.name vertexModule,
          Call.glAttachShader e.name fragmentModule, Call.glLinkProgram e.name,
          Call.glGetProgramiv e.name GL_LINK_STATUS],
         .ok e.name) := by
  simp [linkModules, h]

theorem linkModules_failed (e : ObjectEnv) (vertexModule fragmentModule : Nat)
    (h : e.status = 0) :
    linkModules e vertexModule fragmentModule
      = ([Call.glCreateProgram, Call.glAttachShader e.name vertexModule,
          Call.glAttachShader e.name fragmentModule, Call.glLinkProgram e.name,
          Call.glGetProgramiv e.name GL_LINK_STATUS,
          Call.glGetProgramiv e.name GL_INFO_LOG_LENGTH,
          Call.glGetProgramInfoLog e.name e.infoLogLength],
         .error ("Failed to link GL shader program.\n"
            ++ stdString (getInfoLog e.infoLog e.infoLogLength e.memory))) := by
  simp [linkModules, h]

theorem initGlew_ok (e : GlewEnv) (h : e.glewInit = GLEW_OK) :
    initGlew e
      = (Call.glewInit :: (if e.GLEW_ARB_debug_output then
          [Call.glEnable GL_DEBUG_OUTPUT, Call.glEnable GL_DEBUG_OUTPUT_SYNCHRONOUS,
           Call.glDebugMessageCallback,
           Call.glDebugMessageControl GL_DONT_CARE GL_DONT_CARE GL_DONT_CARE 0 GL_TRUE]
          else []), .ok ()) := by
  cases hd : e.GLEW_ARB_debug_output <;> simp [initGlew, h, hd]

/-! ## Properties of main.cpp -/

theorem main.loop_mem (shouldClose : Nat → Bool) (window shaderProgram vertexArrayObject : Nat)
    (fuel i : Nat) (c : Call)
    (hc : c ∈ (main.loop shouldClose window shaderProgram vertexArrayObject fuel i).1) :
    c ∈ Call.glfwWindowShouldClose window true :: Call.glfwWindowShouldClose window false
          :: main.frame window shaderProgram vertexArrayObject := by
  induction fuel generalizing i with
  | zero => simp [main.loop] at hc
  | succ fuel ih =>
    unfold main.loop at hc
    split at hc
    · simp at hc
      simp [hc]
    · simp only [main.frame, List.cons_append, List.nil_append, List.mem_cons] at hc
      rcases hc with h | h | h | h | h | h | h | h
      all_goals first
        | exact ih _ h
        | simp [h, main.frame]

theorem main.loop_closes (shouldClose : Nat → Bool)
    (window shaderProgram vertexArrayObject : Nat) (n : Nat) :
    ∀ fuel i, shouldClose (i + n) = true → n < fuel →
      (main.loop shouldClose window shaderProgram vertexArrayObject fuel i).2 = true := by
  induction n with
  | zero =>
    intro fuel i h hf
    cases fuel with
    | zero => omega
    | succ fuel =>
      have h0 : shouldClose i = true := by simpa using h
      simp [main.loop, h0]
  | succ n ih =>
    intro fuel i h hf
    cases fuel with
    | zero => omega
    | succ fuel =>
      unfold main.loop
      split
      · rfl
      · exact ih fuel (i + 1) (by rw [← h]; congr 1; omega) (by omega)

theorem main_of_succeeds (env : Env) (window fuel : Nat) (h : env.succeeds window) :
    main env fuel
      = (main.setup env window
          ++ (main.loop env.shouldClose window env.program.name env.vertexArrayObject fuel 0).1
          ++ (if (main.loop env.shouldClose window env.program.name
                    env.vertexArrayObject fuel 0).2
              then main.teardown window env.program.name env.vertexBuffer
                     env.vertexArrayObject
              else []),
         if (main.loop env.shouldClose window env.program.name env.vertexArrayObject fuel 0).2
         then .returned 0 else .unfinished) := by
  obtain ⟨hinit, hwin, hglew, hv, hf, hl⟩ := h
  unfold main
  rw [createWindow_ok env.glfw width height window hinit hwin, initGlew_ok env.glew hglew,
    createShaderModule_compiled env.vertex _ _ hv,
    createShaderModule_compiled env.fragment _ _ hf]
  simp only []
  rw [linkModules_linked env.program _ _ hl]
  simp only []
  rcases hloop : main.loop env.shouldClose window env.program.name env.vertexArrayObject fuel 0
    with ⟨frames, ended⟩
  cases ended <;> simp [main.setup, initGlew_ok env.glew hglew]

theorem main.loop_filterMap {β : Type} (f : Call → Option β)
    (shouldClose : Nat → Bool) (window shaderProgram vertexArrayObject : Nat) (fuel i : Nat)
    (hf : ∀ c ∈ Call.glfwWindowShouldClose window true
            :: Call.glfwWindowShouldClose window false
            :: main.frame window shaderProgram vertexArrayObject, f c = none) :
    (main.loop shouldClose window shaderProgram vertexArrayObject fuel i).1.filterMap f
      = [] := by
  rw [List.filterMap_eq_nil_iff]
  intro c hc
  exact hf c (main.loop_mem shouldClose window shaderProgram vertexArrayObject fuel i c hc)

theorem main.setup_destroys (env : Env) (window : Nat) :
    (main.setup env window).filterMap Call.destroys = [] := by
  unfold main.setup initGlew
  simp only [createWindow.hints, main.state, main.geometry]
  split
  · simp [Call.destroys]
  · split <;> simp [Call.destroys]

theorem main.setup_creates (env : Env) (window : Nat) :
    (main.setup env window).filterMap Call.creates
      = [.windowingSubsystem, .window, .shaderProgram, .vertexBuffer, .vertexArray] := by
  unfold main.setup initGlew
  simp only [createWindow.hints, main.state, main.geometry]
  split
  · simp [Call.creates]
  · split <;> simp [Call.creates]

/-- C1. In every run of `main` in which the window, both shader stages, the program, the
vertex buffer and the vertex array are created (so GLEW initialised too, the stages
being created after it) and the close flag is set at some evaluation `n` of the loop
condition, `main` returns `0` (for every iteration budget above `n`), its trace ends with `glDeleteVertexArrays(vertexArrayObject)`,
`glDeleteBuffers(vertexBuffer)`, `glDeleteProgram(shaderProgram)`,
`glfwDestroyWindow(window)`, `glfwTerminate` in this order, no destroying call occurs
before these five (so each occurs exactly once), and the resources destroyed, in order,
are the reverse of the resources created, in order: windowing subsystem, window,
program, buffer, vertex array. -/
theorem teardown_order (env : Env) (window n fuel : Nat) (h : env.succeeds window)
    (hclose : env.shouldClose n = true) (hfuel : n < fuel) :
    (main env fuel).2 = .returned 0
    ∧ (∃ before, (main env fuel).1 = before
          ++ [Call.glDeleteVertexArrays 1 env.vertexArrayObject,
              Call.glDeleteBuffers 1 env.vertexBuffer,
              Call.glDeleteProgram env.program.name,
              Call.glfwDestroyWindow window,
              Call.glfwTerminate]
        ∧ before.filterMap Call.destroys = [])
    ∧ (main env fuel).1.filterMap Call.creates
        = [.windowingSubsystem, .window, .shaderProgram, .vertexBuffer, .vertexArray]
    ∧ (main env fuel).1.filterMap Call.destroys
        = ((main env fuel).1.filterMap Call.creates).reverse := by
  have hend := main.loop_closes env.shouldClose window env.program.name
    env.vertexArrayObject n fuel 0 (by simpa using hclose) hfuel
  have hcre := main.loop_filterMap Call.creates env.shouldClose window env.program.name
    env.vertexArrayObject fuel 0 (by simp [main.frame, Call.creates])
  have hdes := main.loop_filterMap Call.destroys env.shouldClose window env.program.name
    env.vertexArrayObject fuel 0 (by simp [main.frame, Call.destroys])
  rw [main_of_succeeds env window fuel h, hend]
  simp only [if_true]
  refine ⟨trivial, ⟨main.setup env window ++ (main.loop env.shouldClose window
    env.program.name env.vertexArrayObject fuel 0).1, ?_, ?_⟩, ?_, ?_⟩
  · simp [main.teardown, destroyWindow]
  · simp [main.setup_destroys, hdes]
  · simp [main.setup_creates, hcre, main.teardown, destroyWindow, Call.creates]
  · simp [main.setup_creates, hcre, main.setup_destroys, hdes, main.teardown,
      destroyWindow, Call.creates, Call.destroys]

theorem teardown_order_witness :
    (main closeAtFirstPoll 2).2 = .returned 0
    ∧ (main closeAtFirstPoll 2).1.filterMap Call.destroys
        = [.vertexArray, .vertexBuffer, .shaderProgram, .window, .windowingSubsystem] := by
  have h := teardown_order closeAtFirstPoll 7 1 2
    ⟨rfl, rfl, rfl, by decide, by decide, by decide⟩ rfl (by decide)
  refine ⟨h.1, ?_⟩
  rw [h.2.2.2, h.2.2.1]
  rfl

theorem initGlew_fails (e : GlewEnv) (h : GLEW_OK ≠ e.glewInit) :
    initGlew e = ([Call.glewInit], .error "Failed to initialize GLEW") := by
  simp [initGlew, h]

theorem initGlew_rendersFrame (e : GlewEnv) :
    (initGlew e).1.filter Call.rendersFrame = [] := by
  unfold initGlew
  split
  · simp [Call.rendersFrame]
  · split <;> simp [Call.rendersFrame]

/-- Every run of `main` either has all creation steps succeed, or ends in a thrown error
with no `glUseProgram`, `glDrawArrays` or `glfwSwapBuffers` in its trace. -/
theorem main_succeeds_or_throws (env : Env) (fuel : Nat) :
    (∃ window, env.succeeds window)
    ∨ ((∃ what, (main env fuel).2 = .threw what)
        ∧ (main env fuel).1.filter Call.rendersFrame = []) := by
  by_cases h1 : GLFW_TRUE = env.glfw.glfwInit
  swap
  · right
    unfold main
    rw [createWindow_init_fails _ _ _ h1]
    simp [Call.rendersFrame]
  cases hw : env.glfw.glfwCreateWindow with
  | none =>
    right
    unfold main
    rw [createWindow_window_null _ _ _ h1.symm hw]
    simp [Call.rendersFrame, createWindow.hints]
  | some window =>
    have hglew := initGlew_rendersFrame env.glew
    by_cases h2 : GLEW_OK = env.glew.glewInit
    swap
    · right
      unfold main
      rw [createWindow_ok _ _ _ window h1.symm hw, initGlew_fails _ h2]
      simp [Call.rendersFrame, createWindow.hints]
    rw [initGlew_ok _ h2.symm] at hglew
    simp only [] at hglew
    by_cases hv : env.vertex.status = 0
    · right
      unfold main
      rw [createWindow_ok _ _ _ window h1.symm hw, initGlew_ok _ h2.symm,
        createShaderModule_failed _ _ _ hv]
      simp only []
      refine ⟨⟨_, rfl⟩, ?_⟩
      simp only [List.filter_append, hglew]
      simp [Call.rendersFrame, createWindow.hints, main.state]
    by_cases hf : env.fragment.status = 0
    · right
      unfold main
      rw [createWindow_ok _ _ _ window h1.symm hw, initGlew_ok _ h2.symm,
        createShaderModule_compiled _ _ _ hv, createShaderModule_failed _ _ _ hf]
      simp only []
      refine ⟨⟨_, rfl⟩, ?_⟩
      simp only [List.filter_append, hglew]
      simp [Call.rendersFrame, createWindow.hints, main.state]
    by_cases hl : env.program.status = 0
    · right
      unfold main
      rw [createWindow_ok _ _ _ window h1.symm hw, initGlew_ok _ h2.symm,
        createShaderModule_compiled _ _ _ hv, createShaderModule_compiled _ _ _ hf]
      simp only []
      rw [linkModules_failed _ _ _ hl]
      simp only []
      refine ⟨⟨_, rfl⟩, ?_⟩
      simp only [List.filter_append, hglew]
      simp [Call.rendersFrame, createWindow.hints, main.state]
    · left
      exact ⟨window, h1.symm, hw, h2.symm, hv, hf, hl⟩

/-- C3. In every run of `main` in which compiling the vertex stage, compiling the
fragment stage or linking the program fails, the trace contains no `glUseProgram`, no
`glDrawArrays` and no `glfwSwapBuffers`, and `main` ends with a thrown error (it does
not return `0`), whatever the iteration budget. -/
theorem failed_resource_never_used (env : Env) (fuel : Nat)
    (hfail : env.vertex.status = 0 ∨ env.fragment.status = 0 ∨ env.program.status = 0) :
    (∃ what, (main env fuel).2 = .threw what)
    ∧ (main env fuel).2 ≠ .returned 0
    ∧ (∀ program, Call.glUseProgram program ∉ (main env fuel).1)
    ∧ (∀ mode first count, Call.glDrawArrays mode first count ∉ (main env fuel).1)
    ∧ (∀ window, Call.glfwSwapBuffers window ∉ (main env fuel).1) := by
  rcases main_succeeds_or_throws env fuel with ⟨window, hs⟩ | ⟨⟨what, hw⟩, hr⟩
  · obtain ⟨_, _, _, hv, hf, hl⟩ := hs
    rcases hfail with h | h | h
    · exact absurd h hv
    · exact absurd h hf
    · exact absurd h hl
  · rw [List.filter_eq_nil_iff] at hr
    refine ⟨⟨what, hw⟩, ?_, ?_, ?_, ?_⟩
    · rw [hw]; simp
    · intro program hc
      exact hr _ hc rfl
    · intro mode first count hc
      exact hr _ hc rfl
    · intro window hc
      exact hr _ hc rfl

theorem failed_resource_never_used_witness :
    (main linkFails 5).2 ≠ .returned 0 ∧ Call.glUseProgram 3 ∉ (main linkFails 5).1 :=
  ⟨(failed_resource_never_used linkFails 5 (Or.inr (Or.inr rfl))).2.1,
   (failed_resource_never_used linkFails 5 (Or.inr (Or.inr rfl))).2.2.1 3⟩

/-- C4 as stated fails: in the run `linkFails` both stages compile and `glLinkProgram`
is called and fails; the error propagates out of `linkModules` and the trace contains
no `glDeleteShader` call at all. -/
theorem link_failure_skips_glDeleteShader :
    linkFails.vertex.status ≠ 0 ∧ linkFails.fragment.status ≠ 0
    ∧ Call.glLinkProgram 3 ∈ (main linkFails 5).1
    ∧ Call.glDeleteShader linkFails.vertex.name ∉ (main linkFails 5).1
    ∧ Call.glDeleteShader linkFails.fragment.name ∉ (main linkFails 5).1 := by
  refine ⟨by decide, by decide, ?_, ?_, ?_⟩ <;> decide

/-- C4, amended. In every run of `main` in which both stages compile and `glLinkProgram`
reports success, the trace contains `glDeleteShader(vertexShader)` and
`glDeleteShader(fragmentShader)`, in this order, right after the `glLinkProgram` call
and the query of its link status. -/
theorem shaders_deleted_after_link (env : Env) (window fuel : Nat)
    (h : env.succeeds window) :
    ∃ before after, (main env fuel).1
      = before
        ++ [Call.glLinkProgram env.program.name,
            Call.glGetProgramiv env.program.name GL_LINK_STATUS,
            Call.glDeleteShader env.vertex.name,
            Call.glDeleteShader env.fragment.name]
        ++ after := by
  rw [main_of_succeeds env window fuel h]
  refine ⟨[Call.glfwInit GLFW_TRUE] ++ createWindow.hints
      ++ [Call.glfwCreateWindow (static_cast_int width) (static_cast_int height)
            "OpenGL Example" (some window),
          Call.glfwMakeContextCurrent window]
      ++ (initGlew env.glew).1
      ++ main.state
      ++ [Call.glCreateShader GL_VERTEX_SHADER,
          Call.glShaderSource env.vertex.name 1 vertexShaderSource,
          Call.glCompileShader env.vertex.name,
          Call.glGetShaderiv env.vertex.name GL_COMPILE_STATUS]
      ++ [Call.glCreateShader GL_FRAGMENT_SHADER,
          Call.glShaderSource env.fragment.name 1 fragmentShaderSource,
          Call.glCompileShader env.fragment.name,
          Call.glGetShaderiv env.fragment.name GL_COMPILE_STATUS]
      ++ [Call.glCreateProgram,
          Call.glAttachShader env.program.name env.vertex.name,
          Call.glAttachShader env.program.name env.fragment.name],
    main.geometry env.vertexBuffer env.vertexArrayObject
      ++ (main.loop env.shouldClose window env.program.name env.vertexArrayObject fuel 0).1
      ++ (if (main.loop env.shouldClose window env.program.name
                env.vertexArrayObject fuel 0).2
          then main.teardown window env.program.name env.vertexBuffer env.vertexArrayObject
          else []), ?_⟩
  simp [main.setup]

theorem shaders_deleted_after_link_witness :
    Call.glDeleteShader 1 ∈ (main closeAtFirstPoll 2).1
    ∧ Call.glDeleteShader 2 ∈ (main closeAtFirstPoll 2).1 := by
  obtain ⟨before, after, h⟩ := shaders_deleted_after_link closeAtFirstPoll 7 2
    ⟨rfl, rfl, rfl, by decide, by decide, by decide⟩
  rw [h]
  constructor
  · simp [closeAtFirstPoll, goodObject]
  · simp [closeAtFirstPoll, goodObject]

theorem afterLastPoll_foldl (acc ys : List Call) (h : Call.glfwPollEvents ∉ ys) :
    ys.foldl (fun acc c => if c = Call.glfwPollEvents then [] else acc ++ [c]) acc
      = acc ++ ys := by
  induction ys generalizing acc with
  | nil => simp
  | cons y ys ih =>
    have hy : y ≠ Call.glfwPollEvents := fun e => h (by simp [e])
    have hys : Call.glfwPollEvents ∉ ys := fun e => h (by simp [e])
    simp [List.foldl_cons, hy, ih _ hys]

theorem afterLastPoll_append (xs ys : List Call) (h : Call.glfwPollEvents ∉ ys) :
    afterLastPoll (xs ++ Call.glfwPollEvents :: ys) = ys := by
  unfold afterLastPoll
  rw [List.foldl_append, List.foldl_cons]
  simp [afterLastPoll_foldl _ ys h]

theorem main.loop_last_iteration (shouldClose : Nat → Bool)
    (window shaderProgram vertexArrayObject : Nat) (n : Nat) :
    ∀ fuel i, (∀ j, j ≤ n → shouldClose (i + j) = false) → shouldClose (i + n + 1) = true →
      n + 1 < fuel →
      ∃ before, (main.loop shouldClose window shaderProgram vertexArrayObject fuel i)
          = (before ++ Call.glfwPollEvents ::
              [Call.glClear GL_COLOR_BUFFER_BIT, Call.glUseProgram shaderProgram,
               Call.glBindVertexArray vertexArrayObject, Call.glDrawArrays GL_TRIANGLES 0 3,
               Call.glfwSwapBuffers window, Call.glfwWindowShouldClose window true], true)
        ∧ before.count Call.glfwPollEvents = n := by
  induction n with
  | zero =>
    intro fuel i hrun hclose hfuel
    obtain ⟨fuel, rfl⟩ : ∃ f, fuel = f + 2 := ⟨fuel - 2, by omega⟩
    have h0 : shouldClose i = false := by simpa using hrun 0 (Nat.le_refl 0)
    have h1 : shouldClose (i + 1) = true := by simpa using hclose
    refine ⟨[Call.glfwWindowShouldClose window false], ?_, by simp⟩
    simp [main.loop, h0, h1, main.frame]
  | succ n ih =>
    intro fuel i hrun hclose hfuel
    obtain ⟨fuel, rfl⟩ : ∃ f, fuel = f + 1 := ⟨fuel - 1, by omega⟩
    have h0 : shouldClose i = false := by simpa using hrun 0 (Nat.zero_le _)
    obtain ⟨before, hb, hcount⟩ := ih fuel (i + 1)
      (fun j hj => by
        have := hrun (j + 1) (by omega)
        rw [← this]; congr 1; omega)
      (by rw [← hclose]; congr 1; omega) (by omega)
    refine ⟨Call.glfwWindowShouldClose window false
      :: main.frame window shaderProgram vertexArrayObject ++ before, ?_, ?_⟩
    · simp [main.loop, h0, hb]
    · simp [main.frame, hcount, List.count_cons]

/-- C6 as stated fails: in the run `closeAtFirstPoll` the close flag is false when the
first iteration starts and true after its `glfwPollEvents`, and `glDrawArrays` and
`glfwSwapBuffers` are both issued after that poll. -/
theorem close_during_poll_still_draws :
    closeAtFirstPoll.shouldClose 0 = false ∧ closeAtFirstPoll.shouldClose 1 = true
    ∧ (main closeAtFirstPoll 2).1.count Call.glfwPollEvents = 1
    ∧ Call.glDrawArrays GL_TRIANGLES 0 3 ∈ afterLastPoll (main closeAtFirstPoll 2).1
    ∧ Call.glfwSwapBuffers 7 ∈ afterLastPoll (main closeAtFirstPoll 2).1 := by
  refine ⟨by decide, by decide, ?_, ?_, ?_⟩ <;> decide

/-- C6, amended. In every run of `main` that reaches the frame loop, when the close flag
is false at the start of iterations `0 .. i` and true after the `glfwPollEvents` of
iteration `i`, the rest of that iteration still runs: after that poll (the last poll of
the trace, the `i+1`-th) the calls are exactly `glClear`, `glUseProgram`,
`glBindVertexArray`, one `glDrawArrays`, one `glfwSwapBuffers`, then the loop condition
`glfwWindowShouldClose`, which ends the loop, and the teardown calls; no further
iteration is started and `main` returns `0`. -/
theorem close_during_poll_one_last_frame (env : Env) (window i fuel : Nat)
    (h : env.succeeds window)
    (hrun : ∀ j, j ≤ i → env.shouldClose j = false)
    (hclose : env.shouldClose (i + 1) = true) (hfuel : i + 1 < fuel) :
    afterLastPoll (main env fuel).1
      = [Call.glClear GL_COLOR_BUFFER_BIT, Call.glUseProgram env.program.name,
         Call.glBindVertexArray env.vertexArrayObject, Call.glDrawArrays GL_TRIANGLES 0 3,
         Call.glfwSwapBuffers window, Call.glfwWindowShouldClose window true]
        ++ main.teardown window env.program.name env.vertexBuffer env.vertexArrayObject
    ∧ (main env fuel).1.count Call.glfwPollEvents = i + 1
    ∧ (main env fuel).2 = .returned 0 := by
  obtain ⟨before, hb, hcount⟩ := main.loop_last_iteration env.shouldClose window
    env.program.name env.vertexArrayObject i fuel 0
    (fun j hj => by simpa using hrun j hj) (by simpa using hclose) hfuel
  have hsetup : (main.setup env window).count Call.glfwPollEvents = 0 := by
    rw [List.count_eq_zero]
    unfold main.setup initGlew
    simp only [createWindow.hints, main.state, main.geometry]
    split
    · simp
    · split <;> simp
  rw [main_of_succeeds env window fuel h, hb]
  simp only [if_true]
  refine ⟨?_, ?_, trivial⟩
  · have := afterLastPoll_append (main.setup env window ++ before)
      ([Call.glClear GL_COLOR_BUFFER_BIT, Call.glUseProgram env.program.name,
         Call.glBindVertexArray env.vertexArrayObject, Call.glDrawArrays GL_TRIANGLES 0 3,
         Call.glfwSwapBuffers window, Call.glfwWindowShouldClose window true]
        ++ main.teardown window env.program.name env.vertexBuffer env.vertexArrayObject)
      (by simp [main.teardown, destroyWindow])
    rw [← this]
    simp
  · simp [List.count_append, hsetup, hcount, main.teardown, destroyWindow, List.count_cons]

theorem close_during_poll_one_last_frame_witness :
    afterLastPoll (main closeAtFirstPoll 2).1
      = [Call.glClear GL_COLOR_BUFFER_BIT, Call.glUseProgram 3,
         Call.glBindVertexArray 1, Call.glDrawArrays GL_TRIANGLES 0 3,
         Call.glfwSwapBuffers 7, Call.glfwWindowShouldClose 7 true]
        ++ main.teardown 7 3 1 1 :=
  (close_during_poll_one_last_frame closeAtFirstPoll 7 0 2
    ⟨rfl, rfl, rfl, by decide, by decide, by decide⟩
    (fun j hj => by
      have : j = 0 := by omega
      subst this
      rfl)
    rfl (by decide)).1

/-- C7. In every run of `main` that reaches the geometry upload, the calls that upload
the geometry or describe its layout are exactly: one `glNamedBufferStorage` of the
vertex buffer with flags `0` and a size equal to the byte length of `vertices` (number of
vertices times the size of one vertex, `3 * 12 = 36`); one `glVertexArrayVertexBuffer`
binding that buffer at binding `0`, offset `0`, stride `12` (the size of one vertex); and
for attribute `0` only: format `3` components of `GL_FLOAT`, not normalized, relative
offset `0`; enabled; associated with binding `0`. -/
theorem geometry_upload_and_layout (env : Env) (window fuel : Nat)
    (h : env.succeeds window) :
    (main env fuel).1.filter Call.describesGeometry
      = [Call.glNamedBufferStorage env.vertexBuffer 36 vertices 0,
         Call.glVertexArrayVertexBuffer env.vertexArrayObject 0 env.vertexBuffer 0 12,
         Call.glVertexArrayAttribFormat env.vertexArrayObject 0 3 GL_FLOAT GL_FALSE 0,
         Call.glEnableVertexArrayAttrib env.vertexArrayObject 0,
         Call.glVertexArrayAttribBinding env.vertexArrayObject 0 0]
    ∧ 36 = vertices.length * sizeof_vec3
    ∧ sizeof_vec3 = 12
    ∧ sizeof_vec3 = 3 * 4 := by
  have hloop : (main.loop env.shouldClose window env.program.name
      env.vertexArrayObject fuel 0).1.filter Call.describesGeometry = [] := by
    rw [List.filter_eq_nil_iff]
    intro c hc
    have := main.loop_mem _ _ _ _ _ _ c hc
    simp only [main.frame, List.mem_cons, List.mem_singleton, List.not_mem_nil,
      or_false] at this
    rcases this with h | h | h | h | h | h | h | h <;> subst h <;> simp [Call.describesGeometry]
  have hsetup : (main.setup env window).filter Call.describesGeometry
      = [Call.glNamedBufferStorage env.vertexBuffer 36 vertices 0,
         Call.glVertexArrayVertexBuffer env.vertexArrayObject 0 env.vertexBuffer 0 12,
         Call.glVertexArrayAttribFormat env.vertexArrayObject 0 3 GL_FLOAT GL_FALSE 0,
         Call.glEnableVertexArrayAttrib env.vertexArrayObject 0,
         Call.glVertexArrayAttribBinding env.vertexArrayObject 0 0] := by
    unfold main.setup initGlew
    simp only [createWindow.hints, main.state, main.geometry]
    split
    · simp [Call.describesGeometry, sizeof_vec3, sizeof_float]
    · split <;> simp [Call.describesGeometry, sizeof_vec3, sizeof_float]
  rw [main_of_succeeds env window fuel h]
  refine ⟨?_, by decide, by decide, by decide⟩
  simp only [List.filter_append, hloop, hsetup]
  split <;> simp [main.teardown, destroyWindow, Call.describesGeometry]

theorem geometry_upload_and_layout_witness :
    (main closeAtFirstPoll 2).1.filter Call.describesGeometry
      = [Call.glNamedBufferStorage 1 36 vertices 0,
         Call.glVertexArrayVertexBuffer 1 0 1 0 12,
         Call.glVertexArrayAttribFormat 1 0 3 GL_FLOAT GL_FALSE 0,
         Call.glEnableVertexArrayAttrib 1 0,
         Call.glVertexArrayAttribBinding 1 0 0] :=
  (geometry_upload_and_layout closeAtFirstPoll 7 2
    ⟨rfl, rfl, rfl, by decide, by decide, by decide⟩).1

end OpenGLExample
